import Mathlib

/-!
Shallow embedding of the walk-scheduling backend (`src/index.js`).

The server keeps an in-memory map `activeJobs` from walk id to a pair of
`node-schedule` job handles (activation, timeout).  The endpoint
`POST /api/schedule-walk` validates the body, parses the timestamp, clamps
past dates to now + 1 minute, cancels any existing job pair for the walk id,
creates two new scheduled jobs and registers them.  The activation and
timeout job bodies read the Firestore documents, check their guards and
apply batched updates.

Modelling choices:
* JavaScript request-field values are modelled by `JVal` with its truthiness.
* Firestore collections and the `activeJobs` map are association lists.
* A document field that may be absent is an `Option`; Firestore field
  deletion stores `none`.
* `new Date(s).getTime()` for the request timestamp is an external parse and
  is passed in as `Option Int` (milliseconds; `none` models `NaN`).
* `schedule.scheduleJob` handle creation and `batch.commit` are external
  effects; their success is passed in as a `Bool` parameter.
* `admin.firestore.FieldValue.serverTimestamp()` is the `now` parameter.
* Notifications actually dispatched are collected in an output list.
-/

/-- JavaScript values as they appear in a parsed JSON request body; `jUndef`
models a destructured field that is absent from the body. -/
inductive JVal where
  | jStr (s : String)
  | jNum (n : Int)
  | jBool (b : Bool)
  | jNull
  | jUndef
deriving DecidableEq, Repr

/-- Truthiness of a JavaScript value, as tested by `!walkId || ...` in the
endpoint validation. -/
def JVal.truthy : JVal → Bool
  | .jStr s => decide (s ≠ "")
  | .jNum n => decide (n ≠ 0)
  | .jBool b => b
  | .jNull => false
  | .jUndef => false

/-- Lookup in an association list, first entry with the given key. -/
def alookup {α β : Type} [DecidableEq α] : List (α × β) → α → Option β
  | [], _ => none
  | (k1, v) :: t, k => if k1 = k then some v else alookup t k

/-- Update every entry with the given key by a function (Firestore
`batch.update` on an existing document; a missing document is left alone,
theorems that need the document existing assume it). -/
def aupdate {α β : Type} [DecidableEq α] (k : α) (f : β → β) : List (α × β) → List (α × β)
  | [] => []
  | (k1, v) :: t => if k1 = k then (k1, f v) :: aupdate k f t else (k1, v) :: aupdate k f t

/-- Remove every entry with the given key (JS `Map.delete`). -/
def aremove {α β : Type} [DecidableEq α] : List (α × β) → α → List (α × β)
  | [], _ => []
  | (k1, v) :: t, k => if k1 = k then aremove t k else (k1, v) :: aremove t k

/-- Kind of a scheduled job created by the endpoint. -/
inductive JobKind where
  | activation
  | timeout
deriving DecidableEq, Repr

/-- An in-memory `node-schedule` job: its handle id, the walk it belongs
to, its kind, its firing instant and whether `cancel()` has been called. -/
structure JobRec where
  jid : Nat
  walkId : JVal
  kind : JobKind
  fireAt : Int
  cancelled : Bool
deriving DecidableEq, Repr

/-- The scheduler state of the server process: every job handle ever
created (`jobs`, with `nextId` the next fresh handle id) and the
`activeJobs` map from walk id to the registered (activation, timeout)
handle pair. -/
structure Registry where
  jobs : List JobRec
  nextId : Nat
  activeJobs : List (JVal × Nat × Nat)
deriving DecidableEq, Repr

/-- Call `cancel()` on the job with handle id `i`. -/
def cancelJob (i : Nat) (js : List JobRec) : List JobRec :=
  js.map fun j => if j.jid = i then { j with cancelled := true } else j

/-- Model of `cancelExistingJobs(walkId)`: if the map has an entry, cancel
its activation handle, then its timeout handle, then delete the entry. -/
def cancelExistingJobs (w : JVal) (st : Registry) : Registry :=
  match alookup st.activeJobs w with
  | some (a, t) =>
      { st with jobs := cancelJob t (cancelJob a st.jobs),
                activeJobs := aremove st.activeJobs w }
  | none => st

/-- Model of `schedule.scheduleJob(date, body)`: on success a fresh live
handle is appended; `ok = false` models the `null` return. -/
def createJob (w : JVal) (k : JobKind) (fireAt : Int) (ok : Bool) (st : Registry) :
    Option Nat × Registry :=
  if ok then
    (some st.nextId,
     { st with jobs := st.jobs ++ [⟨st.nextId, w, k, fireAt, false⟩],
               nextId := st.nextId + 1 })
  else (none, st)

/-- HTTP response of the schedule-walk endpoint: 400, 200 (with the body
fields `walkId`, `scheduledTime`, `timeoutTime`, `activeJobsCount`) or 500. -/
inductive ScheduleResp where
  | badRequest (err : String)
  | ok (walkId : JVal) (scheduledTime timeoutTime : Int) (activeJobsCount : Nat)
  | serverError (err : String)
deriving DecidableEq, Repr

/-- Model of the `POST /api/schedule-walk` handler (src/index.js lines
163-386): falsiness validation of the four body fields, date parsing with
past-date clamping to now + 1 minute, timeout at + 5 minutes,
`cancelExistingJobs`, creation of the two jobs, null-handle check, and
registration of the new pair.  `parsedTime` is `new Date(s).getTime()`
(`none` for an unparseable date), `now` is `Date.now()` in milliseconds,
`actOk`/`tmoOk` tell whether each `scheduleJob` call returns a handle. -/
def scheduleWalkEndpoint (walkId senderId recipientId scheduledTimestampISO : JVal)
    (parsedTime : Option Int) (now : Int) (actOk tmoOk : Bool) (st : Registry) :
    ScheduleResp × Registry :=
  if walkId.truthy && senderId.truthy && recipientId.truthy && scheduledTimestampISO.truthy then
    match parsedTime with
    | none => (.badRequest "Invalid scheduledTimestampISO format", st)
    | some t0 =>
      let scheduledDate : Int := if t0 < now then now + 60000 else t0
      let timeoutDate : Int := scheduledDate + 5 * 60000
      let st1 := cancelExistingJobs walkId st
      let r1 := createJob walkId .activation scheduledDate actOk st1
      let r2 := createJob walkId .timeout timeoutDate tmoOk r1.2
      match r1.1, r2.1 with
      | some a, some t =>
          let st4 := { r2.2 with activeJobs := r2.2.activeJobs ++ [(walkId, a, t)] }
          (.ok walkId scheduledDate timeoutDate st4.activeJobs.length, st4)
      | _, _ => (.serverError "Failed to create scheduled jobs", r2.2)
  else
    (.badRequest "Missing required fields", st)

/-- Firestore document in the `accepted_walks` collection, restricted to
the fields the scheduler reads or writes. -/
structure WalkDoc where
  status : String
  activeWalkIdSet : Option Bool
  activatedAt : Option Int
  expiredAt : Option Int
deriving DecidableEq, Repr

/-- Firestore document in the `requests` collection, restricted to the
fields the timeout job writes. -/
structure RequestDoc where
  status : String
  expiredAt : Option Int
deriving DecidableEq, Repr

/-- Firestore document in the `users` collection; `activeWalkId = none`
means the field is absent (deleted), `some v` that it holds the value `v`. -/
structure UserDoc where
  fcmToken : Option String
  activeWalkId : Option JVal
deriving DecidableEq, Repr

/-- The Firestore state the scheduler touches. -/
structure Store where
  acceptedWalks : List (JVal × WalkDoc)
  requests : List (JVal × RequestDoc)
  users : List (JVal × UserDoc)
deriving DecidableEq, Repr

/-- An FCM notification actually handed to `sendFCM`. -/
structure Notification where
  token : String
  title : String
  body : String
  ntype : String
  notifWalkId : JVal
deriving DecidableEq, Repr

/-- Model of `getFCMToken(userId)`. -/
def getFCMToken (st : Store) (userId : JVal) : Option String :=
  match alookup st.users userId with
  | some u => u.fcmToken
  | none => none

/-- Notifications sent by `senderToken ? sendFCM(...) : null` for both
parties: one per party whose token is present. -/
def notifyBoth (st : Store) (senderId recipientId : JVal)
    (title body ntype : String) (walkId : JVal) : List Notification :=
  (match getFCMToken st senderId with
   | some tk => [⟨tk, title, body, ntype, walkId⟩]
   | none => []) ++
  (match getFCMToken st recipientId with
   | some tk => [⟨tk, title, body, ntype, walkId⟩]
   | none => [])

/-- Model of the activation job body (src/index.js lines 217-279): guard on
document existence, `status !== "Accepted"`, and the
`activeWalkIdSet === true` marker; then the batched update (both users'
`activeWalkId`, the walk's marker and `activatedAt`) and the two
best-effort notifications.  `commitOk = false` models `batch.commit()`
throwing; the catch block only logs.  Returns the new store, the new
registry and the notifications sent. -/
def activationJobRun (walkId senderId recipientId : JVal) (now : Int) (commitOk : Bool)
    (st : Store) (reg : Registry) : Store × Registry × List Notification :=
  match alookup st.acceptedWalks walkId with
  | none => (st, cancelExistingJobs walkId reg, [])
  | some walkData =>
    if walkData.status ≠ "Accepted" then
      (st, cancelExistingJobs walkId reg, [])
    else if walkData.activeWalkIdSet = some true then
      (st, reg, [])
    else if commitOk then
      let st1 : Store :=
        { st with
          users := aupdate recipientId (fun u => { u with activeWalkId := some walkId })
                     (aupdate senderId (fun u => { u with activeWalkId := some walkId }) st.users),
          acceptedWalks := aupdate walkId
            (fun wd => { wd with activeWalkIdSet := some true, activatedAt := some now })
            st.acceptedWalks }
      (st1, reg,
       notifyBoth st1 senderId recipientId "Walk Starting Soon! ⏰"
         "Your scheduled walk is starting now. Open the app to begin." "walk_reminder" walkId)
    else (st, reg, [])

/-- Model of the timeout job body (src/index.js lines 282-356): guard on
document existence and `status !== "Accepted"` only; then the batched
update (walk status `Expired` with `expiredAt`, the mirrored `requests`
document when it exists, deletion of both users' `activeWalkId`), the two
best-effort notifications, and the `cancelExistingJobs` cleanup.
`commitOk = false` models `batch.commit()` throwing. -/
def timeoutJobRun (walkId senderId recipientId : JVal) (now : Int) (commitOk : Bool)
    (st : Store) (reg : Registry) : Store × Registry × List Notification :=
  match alookup st.acceptedWalks walkId with
  | none => (st, cancelExistingJobs walkId reg, [])
  | some walkData =>
    if walkData.status ≠ "Accepted" then
      (st, cancelExistingJobs walkId reg, [])
    else if commitOk then
      let st1 : Store :=
        { st with
          acceptedWalks := aupdate walkId
            (fun wd => { wd with status := "Expired", expiredAt := some now })
            st.acceptedWalks,
          requests :=
            match alookup st.requests walkId with
            | some _ => aupdate walkId
                (fun rd => { rd with status := "Expired", expiredAt := some now }) st.requests
            | none => st.requests,
          users := aupdate recipientId (fun u => { u with activeWalkId := none })
                     (aupdate senderId (fun u => { u with activeWalkId := none }) st.users) }
      (st1, cancelExistingJobs walkId reg,
       notifyBoth st1 senderId recipientId "Walk Expired ⏱️"
         "Your scheduled walk was not started in time and has expired." "walk_expired" walkId)
    else (st, reg, [])

/-- Lookup of a job by its handle id. -/
def jobById (st : Registry) (i : Nat) : Option JobRec :=
  st.jobs.find? fun j => decide (j.jid = i)

/-- Well-formedness of the scheduler state: every created handle id, and
every handle id stored in the `activeJobs` map, is below `nextId`. -/
def regWF (st : Registry) : Prop :=
  (∀ j ∈ st.jobs, j.jid < st.nextId) ∧
  (∀ e ∈ st.activeJobs, e.2.1 < st.nextId ∧ e.2.2 < st.nextId)

instance (st : Registry) : Decidable (regWF st) := by
  unfold regWF; infer_instance

/-- The registry has exactly one entry for walk id `w` and both handles of
that entry refer to live (uncancelled) jobs of the right kind for `w`. -/
def liveRegisteredPair (st : Registry) (w : JVal) : Prop :=
  ∃ a t,
    st.activeJobs.filter (fun e => decide (e.1 = w)) = [(w, a, t)] ∧
    (∃ ja, jobById st a = some ja ∧ ja.kind = JobKind.activation ∧
      ja.walkId = w ∧ ja.cancelled = false) ∧
    (∃ jt, jobById st t = some jt ∧ jt.kind = JobKind.timeout ∧
      jt.walkId = w ∧ jt.cancelled = false)

/-- Registry state after a fully successful schedule-walk call: old pair
cancelled and removed, two fresh live jobs appended and registered. -/
def postScheduleReg (st : Registry) (w : JVal) (sd td : Int) : Registry :=
  { jobs := (cancelExistingJobs w st).jobs ++
      [⟨st.nextId, w, JobKind.activation, sd, false⟩,
       ⟨st.nextId + 1, w, JobKind.timeout, td, false⟩],
    nextId := st.nextId + 2,
    activeJobs := (cancelExistingJobs w st).activeJobs ++ [(w, st.nextId, st.nextId + 1)] }

/-- Sample walk id used for concrete evaluations. -/
def w1 : JVal := .jStr "W1"

/-- Sample sender id. -/
def u1 : JVal := .jStr "U1"

/-- Sample recipient id. -/
def u2 : JVal := .jStr "U2"

/-- Sample timestamp body field (truthy). -/
def tsv : JVal := .jStr "2030-01-01T10:00:00Z"

/-- Empty registry at process start. -/
def regEmpty : Registry := ⟨[], 0, []⟩

/-- Sample registry with one live job pair registered for `w1`. -/
def sampleRegistry : Registry :=
  { jobs := [⟨0, w1, .activation, 1000, false⟩, ⟨1, w1, .timeout, 301000, false⟩],
    nextId := 2,
    activeJobs := [(w1, 0, 1)] }

/-- Sample accepted walk document, not yet activated. -/
def walkDocAccepted : WalkDoc := ⟨"Accepted", none, none, none⟩

/-- Sample walk document that was already activated (marker set) with the
status still `Accepted`. -/
def walkDocActivated : WalkDoc := ⟨"Accepted", some true, some 500, none⟩

/-- Sample store: walk `w1` accepted and not activated, both users present
with tokens. -/
def sampleStore : Store :=
  { acceptedWalks := [(w1, walkDocAccepted)],
    requests := [(w1, ⟨"Accepted", none⟩)],
    users := [(u1, ⟨some "tok1", none⟩), (u2, ⟨some "tok2", none⟩)] }

/-- Sample store after activation: marker set, status still `Accepted`,
both users pointing at `w1`. -/
def sampleStoreActivated : Store :=
  { acceptedWalks := [(w1, walkDocActivated)],
    requests := [(w1, ⟨"Accepted", none⟩)],
    users := [(u1, ⟨some "tok1", some w1⟩), (u2, ⟨some "tok2", some w1⟩)] }

/-! Helper lemmas about the association-list operations and job handles. -/

theorem alookup_aupdate_self {α β : Type} [DecidableEq α] (k : α) (f : β → β)
    (l : List (α × β)) : alookup (aupdate k f l) k = (alookup l k).map f := by
  induction l with
  | nil => rfl
  | cons hd t ih =>
    obtain ⟨k1, v⟩ := hd
    simp only [aupdate]
    by_cases hk : k1 = k
    · rw [if_pos hk]
      simp only [alookup, if_pos hk]
      rfl
    · rw [if_neg hk]
      simp only [alookup, if_neg hk, ih]

theorem alookup_aupdate_ne {α β : Type} [DecidableEq α] {k k2 : α} (f : β → β)
    (l : List (α × β)) (h : k2 ≠ k) : alookup (aupdate k f l) k2 = alookup l k2 := by
  induction l with
  | nil => rfl
  | cons hd t ih =>
    obtain ⟨k1, v⟩ := hd
    simp only [aupdate]
    by_cases hk : k1 = k
    · have hne : k1 ≠ k2 := fun hh => h (hh ▸ hk)
      rw [if_pos hk]
      simp only [alookup, if_neg hne, ih]
    · rw [if_neg hk]
      by_cases hk2 : k1 = k2
      · simp only [alookup, if_pos hk2]
      · simp only [alookup, if_neg hk2, ih]

theorem alookup_none_keys {α β : Type} [DecidableEq α] {l : List (α × β)} {k : α}
    (h : alookup l k = none) : ∀ e ∈ l, e.1 ≠ k := by
  induction l with
  | nil => simp
  | cons hd t ih =>
    obtain ⟨k1, v⟩ := hd
    by_cases hk : k1 = k
    · simp [alookup, hk] at h
    · simp only [alookup, hk, if_false] at h
      intro e he
      rcases List.mem_cons.mp he with rfl | he2
      · exact hk
      · exact ih h e he2

theorem alookup_some_mem {α β : Type} [DecidableEq α] {l : List (α × β)} {k : α} {v : β}
    (h : alookup l k = some v) : (k, v) ∈ l := by
  induction l with
  | nil => simp [alookup] at h
  | cons hd t ih =>
    obtain ⟨k1, v1⟩ := hd
    by_cases hk : k1 = k
    · subst hk
      simp only [alookup] at h
      rw [if_pos trivial] at h
      have hv := Option.some.inj h
      subst hv
      exact List.mem_cons_self _ _
    · simp only [alookup, hk, if_false] at h
      exact List.mem_cons_of_mem _ (ih h)

theorem mem_aremove {α β : Type} [DecidableEq α] {l : List (α × β)} {k : α} {e : α × β}
    (h : e ∈ aremove l k) : e ∈ l ∧ e.1 ≠ k := by
  induction l with
  | nil => simp [aremove] at h
  | cons hd t ih =>
    obtain ⟨k1, v1⟩ := hd
    by_cases hk : k1 = k
    · simp only [aremove, if_pos hk] at h
      exact ⟨List.mem_cons_of_mem _ (ih h).1, (ih h).2⟩
    · simp only [aremove, hk, if_false] at h
      rcases List.mem_cons.mp h with rfl | h2
      · exact ⟨List.mem_cons_self _ _, hk⟩
      · exact ⟨List.mem_cons_of_mem _ (ih h2).1, (ih h2).2⟩

theorem alookup_append_of_keys_ne {α β : Type} [DecidableEq α] {l1 : List (α × β)}
    (l2 : List (α × β)) {k : α} (h : ∀ e ∈ l1, e.1 ≠ k) :
    alookup (l1 ++ l2) k = alookup l2 k := by
  induction l1 with
  | nil => rfl
  | cons hd t ih =>
    obtain ⟨k1, v1⟩ := hd
    have hk1 : k1 ≠ k := h (k1, v1) (List.mem_cons_self _ _)
    simp only [List.cons_append, alookup, hk1, if_false]
    exact ih fun e he => h e (List.mem_cons_of_mem _ he)

theorem filter_key_eq_nil {α β : Type} [DecidableEq α] {l : List (α × β)} {k : α}
    (h : ∀ e ∈ l, e.1 ≠ k) : l.filter (fun e => decide (e.1 = k)) = [] := by
  induction l with
  | nil => rfl
  | cons hd t ih =>
    have hk1 : ¬ hd.1 = k := h hd (List.mem_cons_self _ _)
    simp only [List.filter, decide_eq_true_eq]
    simp only [hk1, decide_False]
    exact ih fun e he => h e (List.mem_cons_of_mem _ he)

theorem find?_append_of_false {α : Type} {p : α → Bool} {l1 : List α} (l2 : List α)
    (h : ∀ x ∈ l1, p x = false) : (l1 ++ l2).find? p = l2.find? p := by
  induction l1 with
  | nil => rfl
  | cons hd t ih =>
    have h1 : p hd = false := h hd (List.mem_cons_self _ _)
    simp only [List.cons_append, List.find?, h1]
    exact ih fun x hx => h x (List.mem_cons_of_mem _ hx)

theorem mem_cancelJob {i : Nat} {js : List JobRec} {j : JobRec} (h : j ∈ cancelJob i js) :
    ∃ j0 ∈ js, j = if j0.jid = i then { j0 with cancelled := true } else j0 := by
  simp only [cancelJob, List.mem_map] at h
  obtain ⟨j0, hj0, heq⟩ := h
  exact ⟨j0, hj0, heq.symm⟩

theorem cancelJob_jid {i : Nat} {js : List JobRec} {j : JobRec} (h : j ∈ cancelJob i js) :
    ∃ j0 ∈ js, j.jid = j0.jid := by
  obtain ⟨j0, hj0, heq⟩ := mem_cancelJob h
  refine ⟨j0, hj0, ?_⟩
  by_cases hi : j0.jid = i
  · simp [hi] at heq; simp [heq, hi]
  · simp [hi] at heq; simp [heq]

theorem cancelJob_cancels {i : Nat} {js : List JobRec} {j : JobRec}
    (h : j ∈ cancelJob i js) (hjid : j.jid = i) : j.cancelled = true := by
  obtain ⟨j0, hj0, heq⟩ := mem_cancelJob h
  by_cases hi : j0.jid = i
  · simp [hi] at heq; simp [heq]
  · simp [hi] at heq; subst heq; exact absurd hjid hi

theorem cancelJob_keeps {i : Nat} {js : List JobRec} {j : JobRec}
    (h : j ∈ cancelJob i js) (hc : ∀ j0 ∈ js, j0.jid = j.jid → j0.cancelled = true) :
    j.cancelled = true := by
  obtain ⟨j0, hj0, heq⟩ := mem_cancelJob h
  by_cases hi : j0.jid = i
  · simp [hi] at heq; simp [heq]
  · simp [hi] at heq; subst heq; exact hc j hj0 rfl

theorem cancelExistingJobs_nextId (w : JVal) (st : Registry) :
    (cancelExistingJobs w st).nextId = st.nextId := by
  unfold cancelExistingJobs
  cases alookup st.activeJobs w with
  | none => rfl
  | some p => obtain ⟨a, t⟩ := p; rfl

theorem mem_cancel_activeJobs {w : JVal} {st : Registry} {e : JVal × Nat × Nat}
    (h : e ∈ (cancelExistingJobs w st).activeJobs) : e ∈ st.activeJobs ∧ e.1 ≠ w := by
  unfold cancelExistingJobs at h
  cases hl : alookup st.activeJobs w with
  | none =>
    simp only [hl] at h
    exact ⟨h, alookup_none_keys hl e h⟩
  | some p =>
    obtain ⟨a, t⟩ := p
    simp only [hl] at h
    exact mem_aremove h

theorem mem_cancel_jobs_jid {w : JVal} {st : Registry} {j : JobRec}
    (h : j ∈ (cancelExistingJobs w st).jobs) : ∃ j0 ∈ st.jobs, j.jid = j0.jid := by
  unfold cancelExistingJobs at h
  cases hl : alookup st.activeJobs w with
  | none => simp only [hl] at h; exact ⟨j, h, rfl⟩
  | some p =>
    obtain ⟨a, t⟩ := p
    simp only [hl] at h
    obtain ⟨j1, hj1, hjid1⟩ := cancelJob_jid h
    obtain ⟨j0, hj0, hjid0⟩ := cancelJob_jid hj1
    exact ⟨j0, hj0, hjid1.trans hjid0⟩

theorem scheduleOk_eq (w s r ts : JVal) (p now : Int) (st : Registry)
    (hw : w.truthy = true) (hs : s.truthy = true) (hr : r.truthy = true)
    (hts : ts.truthy = true) :
    scheduleWalkEndpoint w s r ts (some p) now true true st =
      (ScheduleResp.ok w (if p < now then now + 60000 else p)
         ((if p < now then now + 60000 else p) + 5 * 60000)
         ((cancelExistingJobs w st).activeJobs.length + 1),
       postScheduleReg st w (if p < now then now + 60000 else p)
         ((if p < now then now + 60000 else p) + 5 * 60000)) := by
  simp [scheduleWalkEndpoint, hw, hs, hr, hts, createJob, cancelExistingJobs_nextId,
    postScheduleReg]

theorem alookup_postScheduleReg (st : Registry) (w : JVal) (sd td : Int) :
    alookup (postScheduleReg st w sd td).activeJobs w = some (st.nextId, st.nextId + 1) := by
  unfold postScheduleReg
  rw [alookup_append_of_keys_ne _ fun e he => (mem_cancel_activeJobs he).2]
  simp [alookup]

theorem wf_postScheduleReg (st : Registry) (w : JVal) (sd td : Int) (hwf : regWF st) :
    regWF (postScheduleReg st w sd td) := by
  constructor
  · intro j hj
    rcases List.mem_append.mp hj with hj1 | hj2
    · obtain ⟨j0, hj0, hjid⟩ := mem_cancel_jobs_jid hj1
      have := hwf.1 j0 hj0
      simp only [postScheduleReg]
      omega
    · simp only [List.mem_cons, List.mem_singleton] at hj2
      rcases hj2 with rfl | rfl | h
      · simp [postScheduleReg]
      · simp [postScheduleReg]
      · cases h
  · intro e he
    rcases List.mem_append.mp he with he1 | he2
    · have := hwf.2 e (mem_cancel_activeJobs he1).1
      simp only [postScheduleReg]
      omega
    · simp only [List.mem_singleton] at he2
      subst he2
      simp [postScheduleReg]

theorem live_postScheduleReg (st : Registry) (w : JVal) (sd td : Int) (hwf : regWF st) :
    liveRegisteredPair (postScheduleReg st w sd td) w := by
  refine ⟨st.nextId, st.nextId + 1, ?_, ?_, ?_⟩
  · simp only [postScheduleReg, List.filter_append]
    rw [filter_key_eq_nil fun e he => (mem_cancel_activeJobs he).2]
    simp
  · refine ⟨⟨st.nextId, w, JobKind.activation, sd, false⟩, ?_, rfl, rfl, rfl⟩
    unfold jobById postScheduleReg
    rw [find?_append_of_false]
    · simp [List.find?]
    · intro j hj
      obtain ⟨j0, hj0, hjid⟩ := mem_cancel_jobs_jid hj
      have := hwf.1 j0 hj0
      simp only [decide_eq_false_iff_not]
      omega
  · refine ⟨⟨st.nextId + 1, w, JobKind.timeout, td, false⟩, ?_, rfl, rfl, rfl⟩
    unfold jobById postScheduleReg
    rw [find?_append_of_false]
    · have hne : st.nextId ≠ st.nextId + 1 := by omega
      simp [List.find?, hne]
    · intro j hj
      obtain ⟨j0, hj0, hjid⟩ := mem_cancel_jobs_jid hj
      have := hwf.1 j0 hj0
      simp only [decide_eq_false_iff_not]
      omega

theorem postScheduleReg_jobs (st : Registry) (w : JVal) (sd td : Int) :
    (postScheduleReg st w sd td).jobs =
      (cancelExistingJobs w st).jobs ++
        [⟨st.nextId, w, JobKind.activation, sd, false⟩,
         ⟨st.nextId + 1, w, JobKind.timeout, td, false⟩] := rfl

theorem cancelExistingJobs_some {w : JVal} {st : Registry} {a t : Nat}
    (h : alookup st.activeJobs w = some (a, t)) :
    cancelExistingJobs w st =
      { st with jobs := cancelJob t (cancelJob a st.jobs),
                activeJobs := aremove st.activeJobs w } := by
  unfold cancelExistingJobs
  rw [h]

/-- C1: after any successful schedule-walk call the registry holds exactly
one live (activation, timeout) job pair for the walk id; calling the
endpoint twice in succession for the same walk id leaves exactly one live
pair registered, the first pair having been cancelled by
`cancelExistingJobs`. -/
theorem C1_registry_exactly_one_live_pair
    (w s r ts : JVal) (p p2 now now2 : Int) (st : Registry)
    (hwf : regWF st) (hw : w.truthy = true) (hs : s.truthy = true)
    (hr : r.truthy = true) (hts : ts.truthy = true) :
    liveRegisteredPair (scheduleWalkEndpoint w s r ts (some p) now true true st).2 w ∧
    liveRegisteredPair
      (scheduleWalkEndpoint w s r ts (some p2) now2 true true
        (scheduleWalkEndpoint w s r ts (some p) now true true st).2).2 w ∧
    ∀ a t,
      alookup (scheduleWalkEndpoint w s r ts (some p) now true true st).2.activeJobs w
        = some (a, t) →
      ∀ j ∈ (scheduleWalkEndpoint w s r ts (some p2) now2 true true
          (scheduleWalkEndpoint w s r ts (some p) now true true st).2).2.jobs,
        j.jid = a ∨ j.jid = t → j.cancelled = true := by
  have e1 : (scheduleWalkEndpoint w s r ts (some p) now true true st).2 =
      postScheduleReg st w (if p < now then now + 60000 else p)
        ((if p < now then now + 60000 else p) + 5 * 60000) := by
    rw [scheduleOk_eq w s r ts p now st hw hs hr hts]
  have e2 : (scheduleWalkEndpoint w s r ts (some p2) now2 true true
        (postScheduleReg st w (if p < now then now + 60000 else p)
          ((if p < now then now + 60000 else p) + 5 * 60000))).2 =
      postScheduleReg
        (postScheduleReg st w (if p < now then now + 60000 else p)
          ((if p < now then now + 60000 else p) + 5 * 60000)) w
        (if p2 < now2 then now2 + 60000 else p2)
        ((if p2 < now2 then now2 + 60000 else p2) + 5 * 60000) := by
    rw [scheduleOk_eq w s r ts p2 now2 _ hw hs hr hts]
  have wf1 := wf_postScheduleReg st w (if p < now then now + 60000 else p)
    ((if p < now then now + 60000 else p) + 5 * 60000) hwf
  refine ⟨?_, ?_, ?_⟩
  · rw [e1]
    exact live_postScheduleReg st w _ _ hwf
  · rw [e1, e2]
    exact live_postScheduleReg _ w _ _ wf1
  · intro a t ha j hj hor
    rw [e1, alookup_postScheduleReg] at ha
    have hpair := Option.some.inj ha
    injection hpair with ha1 ha2
    subst ha1
    subst ha2
    rw [e1, e2] at hj
    have hcancel := cancelExistingJobs_some
      (alookup_postScheduleReg st w (if p < now then now + 60000 else p)
        ((if p < now then now + 60000 else p) + 5 * 60000))
    rw [postScheduleReg_jobs, hcancel] at hj
    rcases List.mem_append.mp hj with h1 | h2
    · rcases hor with hn | hn1
      · exact cancelJob_keeps h1 fun j0 hj0 hjid => cancelJob_cancels hj0 (hjid.trans hn)
      · exact cancelJob_cancels h1 hn1
    · exfalso
      simp only [List.mem_cons, List.not_mem_nil, or_false] at h2
      rcases h2 with rfl | rfl <;> rcases hor with hn | hn <;>
        simp only [postScheduleReg] at hn <;> omega

theorem alookup_eq_none_of_keys {α β : Type} [DecidableEq α] {l : List (α × β)} {k : α}
    (h : ∀ e ∈ l, e.1 ≠ k) : alookup l k = none := by
  induction l with
  | nil => rfl
  | cons hd t ih =>
    obtain ⟨k1, v⟩ := hd
    have hk1 : k1 ≠ k := h (k1, v) (List.mem_cons_self _ _)
    simp only [alookup, hk1, if_false]
    exact ih fun e he => h e (List.mem_cons_of_mem _ he)

theorem alookup_aremove_self {α β : Type} [DecidableEq α] (l : List (α × β)) (k : α) :
    alookup (aremove l k) k = none :=
  alookup_eq_none_of_keys fun _ he => (mem_aremove he).2

theorem cancelPair_cancels {a t : Nat} {js : List JobRec} :
    ∀ j ∈ cancelJob t (cancelJob a js), j.jid = a ∨ j.jid = t → j.cancelled = true := by
  intro j hj hor
  rcases hor with hn | hn
  · exact cancelJob_keeps hj fun j0 hj0 hjid => cancelJob_cancels hj0 (hjid.trans hn)
  · exact cancelJob_cancels hj hn

/-- C6: a scheduling request whose requested instant parses but lies in the
past is not rejected: the activation instant is clamped to now + 1 minute,
the timeout instant to now + 6 minutes (activation + the 5-minute grace
period), and both instants are returned in the 200 response. -/
theorem C6_past_instant_clamped (w s r ts : JVal) (p now : Int) (st : Registry)
    (hw : w.truthy = true) (hs : s.truthy = true) (hr : r.truthy = true)
    (hts : ts.truthy = true) (hpast : p < now) :
    (scheduleWalkEndpoint w s r ts (some p) now true true st).1 =
      ScheduleResp.ok w (now + 60000) (now + 360000)
        ((cancelExistingJobs w st).activeJobs.length + 1) := by
  rw [scheduleOk_eq w s r ts p now st hw hs hr hts]
  show ScheduleResp.ok w (if p < now then now + 60000 else p)
      ((if p < now then now + 60000 else p) + 5 * 60000)
      ((cancelExistingJobs w st).activeJobs.length + 1) =
    ScheduleResp.ok w (now + 60000) (now + 360000)
      ((cancelExistingJobs w st).activeJobs.length + 1)
  rw [if_pos hpast]
  norm_num
  omega

/-- C9: the endpoint tests each of the four body fields for JavaScript
falsiness; a request with any falsy field (absent, empty string, 0, null,
false) is rejected with 400 before any job is cancelled or created, leaving
the registry unchanged. -/
theorem C9_falsy_field_rejected (w s r ts : JVal) (p : Option Int) (now : Int)
    (aOk tOk : Bool) (st : Registry)
    (h : w.truthy = false ∨ s.truthy = false ∨ r.truthy = false ∨ ts.truthy = false) :
    scheduleWalkEndpoint w s r ts p now aOk tOk st =
      (ScheduleResp.badRequest "Missing required fields", st) := by
  unfold scheduleWalkEndpoint
  rcases h with h | h | h | h <;> simp [h]

/-- C10: the registry replace is not atomic on failure: the existing pair is
cancelled and removed before the new jobs are created, so when either job
handle is null the endpoint returns 500 with the walk id no longer
registered and its previous jobs cancelled. -/
theorem C10_replace_not_atomic (w s r ts : JVal) (p now : Int) (aOk tOk : Bool)
    (st : Registry) (a t : Nat) (hwf : regWF st)
    (hw : w.truthy = true) (hs : s.truthy = true) (hr : r.truthy = true)
    (hts : ts.truthy = true)
    (hprev : alookup st.activeJobs w = some (a, t))
    (hfail : aOk = false ∨ tOk = false) :
    (scheduleWalkEndpoint w s r ts (some p) now aOk tOk st).1 =
      ScheduleResp.serverError "Failed to create scheduled jobs" ∧
    alookup (scheduleWalkEndpoint w s r ts (some p) now aOk tOk st).2.activeJobs w = none ∧
    ∀ j ∈ (scheduleWalkEndpoint w s r ts (some p) now aOk tOk st).2.jobs,
      j.jid = a ∨ j.jid = t → j.cancelled = true := by
  have hmem := alookup_some_mem hprev
  have hlt : a < st.nextId ∧ t < st.nextId := hwf.2 (w, a, t) hmem
  have hc := cancelExistingJobs_some hprev
  cases aOk
  · cases tOk
    · have e : scheduleWalkEndpoint w s r ts (some p) now false false st =
          (ScheduleResp.serverError "Failed to create scheduled jobs",
           cancelExistingJobs w st) := by
        simp [scheduleWalkEndpoint, hw, hs, hr, hts, createJob]
      rw [e]
      refine ⟨rfl, ?_, ?_⟩
      · rw [hc]
        exact alookup_aremove_self _ _
      · intro j hj hor
        rw [hc] at hj
        exact cancelPair_cancels j hj hor
    · have e : scheduleWalkEndpoint w s r ts (some p) now false true st =
          (ScheduleResp.serverError "Failed to create scheduled jobs",
           { cancelExistingJobs w st with
             jobs := (cancelExistingJobs w st).jobs ++
               [⟨(cancelExistingJobs w st).nextId, w, JobKind.timeout,
                 (if p < now then now + 60000 else p) + 5 * 60000, false⟩],
             nextId := (cancelExistingJobs w st).nextId + 1 }) := by
        simp [scheduleWalkEndpoint, hw, hs, hr, hts, createJob]
      rw [e]
      refine ⟨rfl, ?_, ?_⟩
      · show alookup (cancelExistingJobs w st).activeJobs w = none
        rw [hc]
        exact alookup_aremove_self _ _
      · intro j hj hor
        rcases List.mem_append.mp hj with h1 | h2
        · rw [hc] at h1
          exact cancelPair_cancels j h1 hor
        · exfalso
          simp only [List.mem_singleton] at h2
          subst h2
          have hn : (cancelExistingJobs w st).nextId = st.nextId := cancelExistingJobs_nextId w st
          simp only [hn] at hor
          omega
  · cases tOk
    · have e : scheduleWalkEndpoint w s r ts (some p) now true false st =
          (ScheduleResp.serverError "Failed to create scheduled jobs",
           { cancelExistingJobs w st with
             jobs := (cancelExistingJobs w st).jobs ++
               [⟨(cancelExistingJobs w st).nextId, w, JobKind.activation,
                 (if p < now then now + 60000 else p), false⟩],
             nextId := (cancelExistingJobs w st).nextId + 1 }) := by
        simp [scheduleWalkEndpoint, hw, hs, hr, hts, createJob]
      rw [e]
      refine ⟨rfl, ?_, ?_⟩
      · show alookup (cancelExistingJobs w st).activeJobs w = none
        rw [hc]
        exact alookup_aremove_self _ _
      · intro j hj hor
        rcases List.mem_append.mp hj with h1 | h2
        · rw [hc] at h1
          exact cancelPair_cancels j h1 hor
        · exfalso
          simp only [List.mem_singleton] at h2
          subst h2
          have hn : (cancelExistingJobs w st).nextId = st.nextId := cancelExistingJobs_nextId w st
          simp only [hn] at hor
          omega
    · rcases hfail with hb | hb <;> cases hb

/-- C4: if the walk record does not exist, or its status is not `Accepted`,
at the moment the activation job fires, the activation executor performs no
store mutation and sends no notification. -/
theorem C4_activation_guard_noop (walkId s r : JVal) (now : Int) (cOk : Bool)
    (st : Store) (reg : Registry)
    (h : alookup st.acceptedWalks walkId = none ∨
         ∃ wd, alookup st.acceptedWalks walkId = some wd ∧ wd.status ≠ "Accepted") :
    (activationJobRun walkId s r now cOk st reg).1 = st ∧
    (activationJobRun walkId s r now cOk st reg).2.2 = [] := by
  unfold activationJobRun
  rcases h with h | ⟨wd, h, hstat⟩
  · rw [h]
    exact ⟨rfl, rfl⟩
  · rw [h]
    simp [hstat]

theorem activation_marker_noop (walkId s r : JVal) (now : Int) (cOk : Bool) (st : Store)
    (reg : Registry) (wd : WalkDoc) (hwd : alookup st.acceptedWalks walkId = some wd)
    (hstat : wd.status = "Accepted") (hmk : wd.activeWalkIdSet = some true) :
    activationJobRun walkId s r now cOk st reg = (st, reg, []) := by
  unfold activationJobRun
  rw [hwd]
  simp [hstat, hmk]

/-- C3: a successful activation sets the `activeWalkIdSet` marker, and any
subsequent activation attempt for the same walk (with any commit outcome
and any registry) reads the marker and is a no-op: no store mutation, no
registry change, no notification. -/
theorem C3_activation_idempotent (walkId s r : JVal) (now now2 : Int)
    (st : Store) (reg reg2 : Registry) (wd : WalkDoc)
    (hwd : alookup st.acceptedWalks walkId = some wd)
    (hstat : wd.status = "Accepted") (hmk : wd.activeWalkIdSet ≠ some true) :
    ((alookup (activationJobRun walkId s r now true st reg).1.acceptedWalks walkId).map
        WalkDoc.activeWalkIdSet) = some (some true) ∧
    ∀ cOk, activationJobRun walkId s r now2 cOk
        (activationJobRun walkId s r now true st reg).1 reg2 =
      ((activationJobRun walkId s r now true st reg).1, reg2, []) := by
  have e1 : (activationJobRun walkId s r now true st reg).1 =
      { st with
        users := aupdate r (fun u => { u with activeWalkId := some walkId })
                   (aupdate s (fun u => { u with activeWalkId := some walkId }) st.users),
        acceptedWalks := aupdate walkId
          (fun w0 => { w0 with activeWalkIdSet := some true, activatedAt := some now })
          st.acceptedWalks } := by
    unfold activationJobRun
    rw [hwd]
    simp [hstat, hmk]
  have hlook : alookup (activationJobRun walkId s r now true st reg).1.acceptedWalks walkId =
      some { wd with activeWalkIdSet := some true, activatedAt := some now } := by
    rw [e1]
    show alookup (aupdate walkId _ st.acceptedWalks) walkId = _
    rw [alookup_aupdate_self, hwd]
    rfl
  constructor
  · rw [hlook]
    rfl
  · intro cOk
    exact activation_marker_noop walkId s r now2 cOk _ reg2 _ hlook hstat rfl

/-- C5 counterexample: on the success path the activation executor does not
deregister the job pair.  Concretely: the walk is activated (marker is set
in the store) yet the registry still holds the pair (0, 1) for `w1`; and in
the already-activated (marker) branch the pair is also left registered. -/
theorem C5_counterexample_pair_not_deregistered :
    ((alookup (activationJobRun w1 u1 u2 1000 true sampleStore
        sampleRegistry).1.acceptedWalks w1).map WalkDoc.activeWalkIdSet) = some (some true) ∧
    alookup (activationJobRun w1 u1 u2 1000 true sampleStore
        sampleRegistry).2.1.activeJobs w1 = some (0, 1) ∧
    alookup (activationJobRun w1 u1 u2 1000 true sampleStoreActivated
        sampleRegistry).2.1.activeJobs w1 = some (0, 1) := by
  decide

/-- C5 amended: in the activation executor the registry is touched only by
the missing-document and wrong-status guard branches (which cancel and
remove the pair); the already-activated marker branch and the successful
activation path both leave the registry unchanged, so after a successful
activation the pair — including the sibling timeout job — stays registered
and scheduled. -/
theorem C5_amended_registry_effects (walkId s r : JVal) (now : Int)
    (st : Store) (reg : Registry) :
    (alookup st.acceptedWalks walkId = none →
      (activationJobRun walkId s r now true st reg).2.1 = cancelExistingJobs walkId reg) ∧
    (∀ wd, alookup st.acceptedWalks walkId = some wd → wd.status ≠ "Accepted" →
      (activationJobRun walkId s r now true st reg).2.1 = cancelExistingJobs walkId reg) ∧
    (∀ wd, alookup st.acceptedWalks walkId = some wd → wd.status = "Accepted" →
      wd.activeWalkIdSet = some true →
      (activationJobRun walkId s r now true st reg).2.1 = reg) ∧
    (∀ wd, alookup st.acceptedWalks walkId = some wd → wd.status = "Accepted" →
      wd.activeWalkIdSet ≠ some true →
      (activationJobRun walkId s r now true st reg).2.1 = reg) := by
  refine ⟨?_, ?_, ?_, ?_⟩
  · intro h
    unfold activationJobRun
    rw [h]
  · intro wd h hstat
    unfold activationJobRun
    rw [h]
    simp [hstat]
  · intro wd h hstat hmk
    unfold activationJobRun
    rw [h]
    simp [hstat, hmk]
  · intro wd h hstat hmk
    unfold activationJobRun
    rw [h]
    simp [hstat, hmk]

/-- C7: when the timeout executor expires a walk, both parties' user
documents still exist afterwards and their `activeWalkId` field is absent —
cleared by field deletion, not set to null or false. -/
theorem C7_expiration_deletes_field (walkId s r : JVal) (now : Int)
    (st : Store) (reg : Registry) (wd : WalkDoc) (us ur : UserDoc)
    (hwd : alookup st.acceptedWalks walkId = some wd) (hstat : wd.status = "Accepted")
    (hus : alookup st.users s = some us) (hur : alookup st.users r = some ur) :
    ((alookup (timeoutJobRun walkId s r now true st reg).1.users s).map
        UserDoc.activeWalkId) = some none ∧
    ((alookup (timeoutJobRun walkId s r now true st reg).1.users r).map
        UserDoc.activeWalkId) = some none := by
  have e1 : (timeoutJobRun walkId s r now true st reg).1.users =
      aupdate r (fun u => { u with activeWalkId := none })
        (aupdate s (fun u => { u with activeWalkId := none }) st.users) := by
    unfold timeoutJobRun
    rw [hwd]
    simp [hstat]
  rw [e1]
  constructor
  · by_cases hrs : r = s
    · subst hrs
      rw [alookup_aupdate_self, alookup_aupdate_self, hus]
      rfl
    · rw [alookup_aupdate_ne _ _ fun hh => hrs hh.symm, alookup_aupdate_self, hus]
      rfl
  · by_cases hrs : r = s
    · subst hrs
      rw [alookup_aupdate_self, alookup_aupdate_self, hur]
      rfl
    · rw [alookup_aupdate_self, alookup_aupdate_ne _ _ hrs, hur]
      rfl

/-- C2: the timeout guard in the source checks only the status, not the
`activeWalkIdSet` marker.  Evaluated at a walk whose activation has been
applied (marker `some true`) and whose status is still `Accepted`, the
timeout executor does expire the walk: status becomes `Expired`, both
parties' `activeWalkId` fields are deleted, and expiry notifications are
sent — contradicting the claimed marker check. -/
theorem C2_code_expires_activated_walk :
    ((alookup sampleStoreActivated.acceptedWalks w1).map WalkDoc.activeWalkIdSet)
      = some (some true) ∧
    ((alookup (timeoutJobRun w1 u1 u2 900 true sampleStoreActivated
        sampleRegistry).1.acceptedWalks w1).map WalkDoc.status) = some "Expired" ∧
    ((alookup (timeoutJobRun w1 u1 u2 900 true sampleStoreActivated
        sampleRegistry).1.users u1).map UserDoc.activeWalkId) = some none ∧
    (timeoutJobRun w1 u1 u2 900 true sampleStoreActivated sampleRegistry).2.2 =
      [⟨"tok1", "Walk Expired ⏱️",
        "Your scheduled walk was not started in time and has expired.", "walk_expired", w1⟩,
       ⟨"tok2", "Walk Expired ⏱️",
        "Your scheduled walk was not started in time and has expired.", "walk_expired", w1⟩] := by
  decide

/-- C8: when the batched store write fails (modelled by `commitOk = false`)
in either executor while the guards pass, the job exits with the store
unchanged, the registry unchanged (no cleanup is reached) and no
notification dispatched; the model is a total function, so the failure is
neither retried nor fatal. -/
theorem C8_commit_failure_no_side_effects (walkId s r : JVal) (now : Int)
    (st : Store) (reg : Registry) (wd : WalkDoc)
    (hwd : alookup st.acceptedWalks walkId = some wd) (hstat : wd.status = "Accepted")
    (hmk : wd.activeWalkIdSet ≠ some true) :
    activationJobRun walkId s r now false st reg = (st, reg, []) ∧
    timeoutJobRun walkId s r now false st reg = (st, reg, []) := by
  constructor
  · unfold activationJobRun
    rw [hwd]
    simp [hstat, hmk]
  · unfold timeoutJobRun
    rw [hwd]
    simp [hstat]

theorem C1_witness :
    regWF regEmpty ∧
    liveRegisteredPair (scheduleWalkEndpoint w1 u1 u2 tsv (some 5000) 1000 true true
      regEmpty).2 w1 ∧
    liveRegisteredPair (scheduleWalkEndpoint w1 u1 u2 tsv (some 7000) 2000 true true
      (scheduleWalkEndpoint w1 u1 u2 tsv (some 5000) 1000 true true regEmpty).2).2 w1 :=
  ⟨by decide,
   (C1_registry_exactly_one_live_pair w1 u1 u2 tsv 5000 7000 1000 2000 regEmpty (by decide)
     (by decide) (by decide) (by decide) (by decide)).1,
   (C1_registry_exactly_one_live_pair w1 u1 u2 tsv 5000 7000 1000 2000 regEmpty (by decide)
     (by decide) (by decide) (by decide) (by decide)).2.1⟩

theorem C6_witness :
    (5000 : Int) < 100000 ∧
    (scheduleWalkEndpoint w1 u1 u2 tsv (some 5000) 100000 true true regEmpty).1 =
      ScheduleResp.ok w1 (100000 + 60000) (100000 + 360000)
        ((cancelExistingJobs w1 regEmpty).activeJobs.length + 1) :=
  ⟨by decide, C6_past_instant_clamped w1 u1 u2 tsv 5000 100000 regEmpty (by decide) (by decide)
    (by decide) (by decide) (by decide)⟩

theorem C9_witness :
    (JVal.jNum 0).truthy = false ∧
    scheduleWalkEndpoint (JVal.jNum 0) u1 u2 tsv (some 5000) 1000 true true sampleRegistry =
      (ScheduleResp.badRequest "Missing required fields", sampleRegistry) :=
  ⟨by decide, C9_falsy_field_rejected (JVal.jNum 0) u1 u2 tsv (some 5000) 1000 true true
    sampleRegistry (Or.inl (by decide))⟩

theorem C10_witness :
    alookup sampleRegistry.activeJobs w1 = some (0, 1) ∧
    (scheduleWalkEndpoint w1 u1 u2 tsv (some 5000) 1000 true false sampleRegistry).1 =
      ScheduleResp.serverError "Failed to create scheduled jobs" ∧
    alookup (scheduleWalkEndpoint w1 u1 u2 tsv (some 5000) 1000 true false
      sampleRegistry).2.activeJobs w1 = none :=
  ⟨by decide,
   (C10_replace_not_atomic w1 u1 u2 tsv 5000 1000 true false sampleRegistry 0 1 (by decide)
     (by decide) (by decide) (by decide) (by decide) (by decide) (Or.inr rfl)).1,
   (C10_replace_not_atomic w1 u1 u2 tsv 5000 1000 true false sampleRegistry 0 1 (by decide)
     (by decide) (by decide) (by decide) (by decide) (by decide) (Or.inr rfl)).2.1⟩

theorem C4_witness :
    alookup sampleStore.acceptedWalks (JVal.jStr "W2") = none ∧
    (activationJobRun (JVal.jStr "W2") u1 u2 1000 true sampleStore sampleRegistry).1 =
      sampleStore ∧
    (activationJobRun (JVal.jStr "W2") u1 u2 1000 true sampleStore sampleRegistry).2.2 = [] :=
  ⟨by decide,
   (C4_activation_guard_noop (JVal.jStr "W2") u1 u2 1000 true sampleStore sampleRegistry
     (Or.inl (by decide))).1,
   (C4_activation_guard_noop (JVal.jStr "W2") u1 u2 1000 true sampleStore sampleRegistry
     (Or.inl (by decide))).2⟩

theorem C3_witness :
    ((alookup (activationJobRun w1 u1 u2 1000 true sampleStore sampleRegistry).1.acceptedWalks
        w1).map WalkDoc.activeWalkIdSet) = some (some true) ∧
    activationJobRun w1 u1 u2 2000 true
        (activationJobRun w1 u1 u2 1000 true sampleStore sampleRegistry).1 regEmpty =
      ((activationJobRun w1 u1 u2 1000 true sampleStore sampleRegistry).1, regEmpty, []) :=
  ⟨(C3_activation_idempotent w1 u1 u2 1000 2000 sampleStore sampleRegistry regEmpty
      walkDocAccepted (by decide) (by decide) (by decide)).1,
   (C3_activation_idempotent w1 u1 u2 1000 2000 sampleStore sampleRegistry regEmpty
      walkDocAccepted (by decide) (by decide) (by decide)).2 true⟩

theorem C5_amended_witness :
    (activationJobRun w1 u1 u2 1000 true sampleStore sampleRegistry).2.1 = sampleRegistry :=
  (C5_amended_registry_effects w1 u1 u2 1000 sampleStore sampleRegistry).2.2.2
    walkDocAccepted (by decide) (by decide) (by decide)

theorem C7_witness :
    ((alookup (timeoutJobRun w1 u1 u2 900 true sampleStore sampleRegistry).1.users u1).map
        UserDoc.activeWalkId) = some none ∧
    ((alookup (timeoutJobRun w1 u1 u2 900 true sampleStore sampleRegistry).1.users u2).map
        UserDoc.activeWalkId) = some none :=
  C7_expiration_deletes_field w1 u1 u2 900 sampleStore sampleRegistry walkDocAccepted
    ⟨some "tok1", none⟩ ⟨some "tok2", none⟩ (by decide) (by decide) (by decide) (by decide)

theorem C8_witness :
    activationJobRun w1 u1 u2 1000 false sampleStore sampleRegistry =
      (sampleStore, sampleRegistry, []) ∧
    timeoutJobRun w1 u1 u2 1000 false sampleStore sampleRegistry =
      (sampleStore, sampleRegistry, []) :=
  C8_commit_failure_no_side_effects w1 u1 u2 1000 sampleStore sampleRegistry walkDocAccepted
    (by decide) (by decide) (by decide)
